import Mathlib

/-!
Verification of the `create-tawala-app` project scaffolder
(`src/create_tawala_app/__init__.py`) against its specification.

The Python source is shallowly embedded below.  Strings are Lean `String`s
(lists of characters); the two regular expressions used by the validator are
translated into explicit character-list matchers that reproduce the semantics
of Python `re.match`, including the fact that `$` (without `re.MULTILINE`)
matches either at the end of the string or just before a single newline that
ends the string.  The interactive resolution loop is embedded as a
fuel-indexed interpreter over an abstract filesystem (`World`) and a scripted
list of prompt responses (`Resp`); exceptions are an explicit `PyErr` sum and
filesystem writes are an explicit `Effect` trace.
-/

/-- ASCII whitespace as recognised by Python `str.strip` and the regex class
`\s`: space, tab, newline, carriage return, vertical tab, form feed. -/
def isPySpace (c : Char) : Bool :=
  c == ' ' || c == '\t' || c == '\n' || c == '\r' ||
    c == Char.ofNat 11 || c == Char.ofNat 12

/-- Python `str.strip()` (the source only ever strips ASCII input). -/
def pyStrip (s : String) : String :=
  String.mk (((s.data.dropWhile isPySpace).reverse.dropWhile isPySpace).reverse)

/-- The regex class `[a-zA-Z]`. -/
def isAsciiLetter (c : Char) : Bool :=
  ('a' ≤ c && c ≤ 'z') || ('A' ≤ c && c ≤ 'Z')

/-- The regex class `[0-9]`. -/
def isAsciiDigit (c : Char) : Bool := '0' ≤ c && c ≤ '9'

/-- The regex class `[a-zA-Z0-9]`. -/
def isAlnum (c : Char) : Bool := isAsciiLetter c || isAsciiDigit c

/-- The regex class `[a-zA-Z_]`. -/
def isNameStart (c : Char) : Bool := isAsciiLetter c || c == '_'

/-- The regex class `[a-zA-Z0-9_]`. -/
def isNameChar (c : Char) : Bool := isAlnum c || c == '_'

/-- `keyword.kwlist` of CPython 3.11+ (the interpreter the source requires,
since it imports `tomllib`). -/
def pythonKeywords : List String :=
  ["False", "None", "True", "and", "as", "assert", "async", "await",
   "break", "class", "continue", "def", "del", "elif", "else", "except",
   "finally", "for", "from", "global", "if", "import", "in", "is",
   "lambda", "nonlocal", "not", "or", "pass", "raise", "return", "try",
   "while", "with", "yield"]

/-- `keyword.iskeyword`. -/
def iskeyword (s : String) : Bool := pythonKeywords.contains s

/-- Python `bool(re.match(core ++ "$", s))` for an anchored core matcher:
`$` matches at the end of the string or just before one trailing newline. -/
def pyFullMatch (core : List Char → Bool) (l : List Char) : Bool :=
  core l || (l.getLast? == some '\n' && core l.dropLast)

/-- Matcher for `[a-zA-Z0-9_]*[a-zA-Z0-9]` against a whole list: every
character but the last is in `[a-zA-Z0-9_]`, the last is in `[a-zA-Z0-9]`. -/
def mainTail : List Char → Bool
  | [] => false
  | [c] => isAlnum c
  | c :: rest => isNameChar c && mainTail rest

/-- Core of the first regex alternative `^[a-zA-Z_][a-zA-Z0-9_]*[a-zA-Z0-9]$`
(before the `$` handling of `pyFullMatch`). -/
def mainCore : List Char → Bool
  | [] => false
  | c :: rest => isNameStart c && mainTail rest

/-- Core of the second regex alternative `^[a-zA-Z]$`. -/
def singleLetterCore : List Char → Bool
  | [c] => isAsciiLetter c
  | _ => false

/-- `bool(re.match(r"^[a-zA-Z_]", name))`: an unanchored-on-the-right prefix
match, true iff the first character is in `[a-zA-Z_]`. -/
def startCheck : List Char → Bool
  | c :: _ => isNameStart c
  | [] => false

/-- `bool(re.match(r"[a-zA-Z0-9]$", name))`.  `re.match` anchors at the
START of the string, so the single class character must be the first
character and `$` must hold at position 1: the string is one alphanumeric
character, or one alphanumeric character followed by a newline.  (This is
the faithful translation; it does NOT test the last character.) -/
def endCheckMatch : List Char → Bool
  | [c] => isAlnum c
  | [c, d] => isAlnum c && d == '\n'
  | _ => false

/-- Core of `^[a-zA-Z0-9_]+$` (before the `$` handling of `pyFullMatch`). -/
def charsetCore (l : List Char) : Bool := !l.isEmpty && l.all isNameChar

/-- `ProjectNameValidator.is_valid`:
`if not name or keyword.iskeyword(name): return False` then
`bool(re.match(r"^[a-zA-Z_][a-zA-Z0-9_]*[a-zA-Z0-9]$|^[a-zA-Z]$", name))`. -/
def is_valid (name : String) : Bool :=
  if name.data.isEmpty || iskeyword name then false
  else pyFullMatch mainCore name.data || pyFullMatch singleLetterCore name.data

/-- One apostrophe character (U+0027), used in the diagnostic messages. -/
def apos : String := String.singleton (Char.ofNat 39)

/-- Message of rule 1 of `get_error_message`. -/
def msg_empty : String := "Project name cannot be empty."

/-- Message of rule 2 of `get_error_message`. -/
def msg_keyword (n : String) : String :=
  apos ++ n ++ apos ++ " is a Python keyword and cannot be used as a project name."

/-- Message of rule 3 of `get_error_message`. -/
def msg_start (n : String) : String :=
  apos ++ n ++ apos ++ " must start with a letter or underscore."

/-- Message of rule 4 of `get_error_message`. -/
def msg_end (n : String) : String :=
  apos ++ n ++ apos ++ " must end with a letter or number (not underscore or hyphen)."

/-- Message of rule 5 of `get_error_message`. -/
def msg_charset (n : String) : String :=
  apos ++ n ++ apos ++
    " can only contain letters, numbers, and underscores. No hyphens or special characters."

/-- Final fallback message of `get_error_message`. -/
def msg_fallback (n : String) : String :=
  apos ++ n ++ apos ++ " is not a valid Python package name."

/-- `ProjectNameValidator.get_error_message`, with each `re.match` test
translated faithfully (see `startCheck`, `endCheckMatch`, `pyFullMatch`). -/
def get_error_message (name : String) : String :=
  if name.data.isEmpty then msg_empty
  else if iskeyword name then msg_keyword name
  else if !(startCheck name.data) then msg_start name
  else if !(endCheckMatch name.data) then msg_end name
  else if !(pyFullMatch charsetCore name.data) then msg_charset name
  else msg_fallback name

/-- The validity predicate exactly as claim C2 words it (a refinement
reference, NOT translated from the code): `s` matches
`^[a-zA-Z_][a-zA-Z0-9_]*[a-zA-Z0-9]$` (read with Python `re` semantics,
as the code does) or `s` is a single letter, and `s` is not a keyword. -/
def c2_claimed_valid (s : String) : Bool :=
  (pyFullMatch mainCore s.data || singleLetterCore s.data) && !(iskeyword s)

/-- Destination paths that occur in `TawalaProjectCreator`: the current
working directory itself, or the pathlib join `cwd / n` for a non-empty
name `n` obtained from the CLI or a stripped prompt response.  (`cwd / n`
differs from `cwd` for every such name; validated names contain no path
separators or dots.) -/
inductive PPath
  | cwdP
  | sub (n : String)
deriving DecidableEq

/-- The mutable fields of `TawalaProjectCreator` touched by resolution:
`self.project_name` (`Optional[str]`) and `self.project_path`. -/
structure RState where
  name : Option String
  path : PPath
deriving DecidableEq

/-- The filesystem and template environment read by the program; it is
never mutated during resolution (the program only writes after resolution
completes, and those writes are recorded as an `Effect` trace instead).
`childExists n` models `(cwd / n).exists()`; `rootEntries` are the entries
of the templates root with their `is_dir()` status, in iteration order. -/
structure World where
  cwdName : String
  cwdNonempty : Bool
  childExists : String → Bool
  templatesRootExists : Bool
  rootEntries : List (String × Bool)
  templatesDirStr : String
  templatePathStr : String
  templateTopItems : List String
  templateRglob : List String
  templateHasPyproject : Bool
  pyprojectContent : String
  templateHasReadme : Bool

/-- `path.exists()`: the current directory always exists. -/
def pexists (w : World) : PPath → Bool
  | .cwdP => true
  | .sub n => w.childExists n

/-- `path == self.cwd` (pathlib equality). -/
def peqCwd : PPath → Bool
  | .cwdP => true
  | .sub _ => false

/-- `TawalaProjectCreator._should_use_existing_path` (it reads only
`self.project_path` and the world):
`path.exists() and path == cwd and not any(cwd.iterdir())`. -/
def should_use_existing_path (w : World) (p : PPath) : Bool :=
  pexists w p && peqCwd p && !w.cwdNonempty

/-- A scripted reaction to one `input()` call: a line of text, or a
keyboard interrupt delivered while the program blocks on the prompt. -/
inductive Resp
  | text (s : String)
  | intr
deriving DecidableEq

/-- The Python exceptions that the program raises or propagates. -/
inductive PyErr
  | keyboardInterrupt
  | eofError
  | fileNotFound (msg : String)
  | keyError (msg : String)
  | valueError (msg : String)
  | fileExists
deriving DecidableEq

/-- `TawalaProjectCreator._prompt_for_project_name`: one `input()` call
followed by `.strip()`.  An exhausted script models `input()` hitting end
of file (`EOFError`); an interrupt raises `KeyboardInterrupt`. -/
def prompt_for_project_name : List Resp → Except PyErr (String × List Resp)
  | [] => .error .eofError
  | .intr :: _ => .error .keyboardInterrupt
  | .text s :: rest => .ok (pyStrip s, rest)

/-- `TawalaProjectCreator._calculate_project_path` combined with the
constructor: `project_name = args.name` and
`project_path = (cwd / name) if name else cwd`.  An empty string is kept
as the name (it is not `None`) but is falsy, so the path stays `cwd`. -/
def initState (argsName : Option String) : RState :=
  match argsName with
  | none => ⟨none, PPath.cwdP⟩
  | some n => if n = "" then ⟨some n, PPath.cwdP⟩ else ⟨some n, PPath.sub n⟩

/-- `TawalaProjectCreator._handle_unnamed_project`.  Result `true` means
"resolved, stop the loop", `false` means "retry".  Note that in the
non-empty-cwd branch an empty reply leaves `project_name = ""` (the code
returns before resetting it to `None`), and in the empty-cwd branch the
adopted directory name never updates `project_path`. -/
def handle_unnamed_project (w : World) (st : RState) (ins : List Resp) :
    Except PyErr (Bool × RState × List Resp) :=
  if w.cwdNonempty then
    match prompt_for_project_name ins with
    | .error e => .error e
    | .ok (m, rest) =>
      if m = "" then .ok (false, ⟨some m, st.path⟩, rest)
      else if is_valid m then .ok (true, ⟨some m, PPath.sub m⟩, rest)
      else .ok (false, ⟨none, st.path⟩, rest)
  else
    if is_valid w.cwdName then .ok (true, ⟨some w.cwdName, st.path⟩, ins)
    else .ok (false, ⟨none, st.path⟩, ins)

/-- `TawalaProjectCreator._handle_named_project` for current name `n`.
The guard is `if self.project_name and not is_valid(...)`, so an empty
string skips validation; in the re-prompt branch a non-empty reply is
stored (with its path) WITHOUT validation and the loop retries; both
terminal `return True` statements (the `_should_use_existing_path` branch
and the fall-through) leave the state unchanged. -/
def handle_named_project (w : World) (st : RState) (n : String)
    (ins : List Resp) : Except PyErr (Bool × RState × List Resp) :=
  if n = "" then
    if should_use_existing_path w st.path then .ok (true, st, ins)
    else .ok (true, st, ins)
  else if is_valid n then
    if should_use_existing_path w st.path then .ok (true, st, ins)
    else .ok (true, st, ins)
  else
    match prompt_for_project_name ins with
    | .error e => .error e
    | .ok (m, rest) =>
      if m = "" then .ok (false, ⟨none, st.path⟩, rest)
      else .ok (false, ⟨some m, PPath.sub m⟩, rest)

/-- `TawalaProjectCreator._resolve_project_path`: `while True`, dispatch
on `project_name is None`, break when the handler returns `True`.  The
fuel argument bounds the number of iterations; `none` means the loop was
still running (the real loop can run forever, e.g. an empty cwd whose
basename is not a valid name re-enters the same branch without input). -/
def resolve_project_path :
    Nat → World → RState → List Resp → Option (Except PyErr (RState × List Resp))
  | 0, _, _, _ => none
  | f + 1, w, st, ins =>
    let step := match st.name with
      | none => handle_unnamed_project w st ins
      | some n => handle_named_project w st n ins
    match step with
    | .error e => some (.error e)
    | .ok (true, st', ins') => some (.ok (st', ins'))
    | .ok (false, st', ins') => resolve_project_path f w st' ins'

/-- `TawalaProjectCreator._validate_project_path_availability`: loop until
the empty-cwd special case applies or the path does not exist; on an
existing path, prompt; an empty reply resets the name and re-runs
`_resolve_project_path`, an invalid reply only reports and retries (path
unchanged), a valid reply updates the path and retries. -/
def validate_project_path_availability :
    Nat → World → RState → List Resp → Option (Except PyErr (RState × List Resp))
  | 0, _, _, _ => none
  | f + 1, w, st, ins =>
    if should_use_existing_path w st.path then some (.ok (st, ins))
    else if pexists w st.path then
      match prompt_for_project_name ins with
      | .error e => some (.error e)
      | .ok (m, rest) =>
        if m = "" then
          match resolve_project_path f w ⟨none, st.path⟩ rest with
          | none => none
          | some (.error e) => some (.error e)
          | some (.ok (st', ins')) =>
              validate_project_path_availability f w st' ins'
        else if is_valid m then
          validate_project_path_availability f w ⟨some m, PPath.sub m⟩ rest
        else
          validate_project_path_availability f w ⟨some m, st.path⟩ rest
    else some (.ok (st, ins))

/-- The resolution phase of `create`: `_resolve_project_path()` followed by
`_validate_project_path_availability()`. -/
def resolve_then_validate (f : Nat) (w : World) (st : RState)
    (ins : List Resp) : Option (Except PyErr (RState × List Resp)) :=
  match resolve_project_path f w st ins with
  | none => none
  | some (.error e) => some (.error e)
  | some (.ok (st', ins')) => validate_project_path_availability f w st' ins'

/-- `TawalaProjectCreator._get_available_templates`:
`[]` if the templates root does not exist, otherwise the names of its
directory entries. -/
def get_available_templates (w : World) : List String :=
  if w.templatesRootExists then
    (w.rootEntries.filter fun e => e.2).map fun e => e.1
  else []

/-- `self.template_path.exists() and self.template_path.is_dir()`: the
requested name appears among the templates root entries as a directory. -/
def template_ok (w : World) (t : String) : Bool :=
  w.templatesRootExists && w.rootEntries.any fun e => e.1 == t && e.2

/-- The `FileNotFoundError` message built by
`TawalaProjectCreator._raise_template_not_found_error`. -/
def template_not_found_msg (w : World) (t : String) : String :=
  "Template " ++ apos ++ t ++ apos ++ " not found in " ++ w.templatesDirStr ++
    "." ++
    (if get_available_templates w ≠ [] then
      " Available templates: " ++ String.intercalate ", " (get_available_templates w)
    else "")

/-- `TawalaProjectCreator._validate_template`. -/
def validate_template (w : World) (t : String) : Except PyErr Unit :=
  if template_ok w t then .ok ()
  else .error (.fileNotFound (template_not_found_msg w t))

/-- A filesystem write performed by the program. -/
inductive Effect
  | mkdir (p : PPath)
  | copyItem (p : PPath) (item : String)
  | writeFile (p : PPath) (file : String) (content : String)
deriving DecidableEq

/-- One `cprint`/`cprint_mixed` call of the dry-run preview, abstracted to
its data (the rich-markup styling carries no information relevant to the
spec). -/
inductive OutLine
  | wouldCreate (p : PPath)
  | copyFrom (tpl : String)
  | copyTo (p : PPath)
  | filesHeader (n : Nat)
  | fileEntry (rel : String)
  | andMore (n : Nat)
deriving DecidableEq

/-- `TawalaProjectCreator._show_template_files_preview`.
`template_files = list(template_path.rglob("*"))` is supplied by the world
in the order the OS returns it (pathlib does NOT sort it); entries are
relative paths; at most `preview_limit = 10` entries are printed, then
`... and {len - 10} more`. -/
def show_template_files_preview (files : List String) : List OutLine :=
  if files.isEmpty then []
  else
    OutLine.filesHeader files.length ::
      ((files.take 10).map OutLine.fileEntry ++
        (if 10 < files.length then [OutLine.andMore (files.length - 10)] else []))

/-- `TawalaProjectCreator._show_dry_run_output`. -/
def show_dry_run_output (w : World) (st : RState) : List OutLine :=
  (if peqCwd st.path then [] else [OutLine.wouldCreate st.path]) ++
    OutLine.copyFrom w.templatePathStr :: OutLine.copyTo st.path ::
      show_template_files_preview w.templateRglob

/-- `TawalaProjectCreator._create_project_structure` /
`_copy_template_files`: in dry mode only the preview is printed; otherwise
`mkdir(parents=True, exist_ok=False)` when the destination differs from
`cwd` (raising `FileExistsError` if it already exists), then every
top-level template entry is copied into the destination. -/
def create_project_structure (w : World) (dry : Bool) (st : RState) :
    Except PyErr Unit × List Effect :=
  if dry then (.ok (), [])
  else if peqCwd st.path then
    (.ok (), w.templateTopItems.map (Effect.copyItem st.path))
  else if pexists w st.path then (.error .fileExists, [])
  else
    (.ok (), Effect.mkdir st.path :: w.templateTopItems.map (Effect.copyItem st.path))

/-- Literal characters of `name`, used by the manifest-rewrite pattern. -/
def nameLit : List Char := ['n', 'a', 'm', 'e']

/-- The double-quote character. -/
def dquote : Char := '"'

/-- The single-quote character. -/
def squote : Char := Char.ofNat 39

/-- The regex class `["']` of the manifest-rewrite pattern. -/
def quoteChar (c : Char) : Bool := c == dquote || c == squote

/-- Consume an exact literal prefix, returning what follows it. -/
def eatLit : List Char → List Char → Option (List Char)
  | [], l => some l
  | _ :: _, [] => none
  | c :: cs, d :: ds => if c = d then eatLit cs ds else none

/-- Try to match the regex `(name\s*=\s*["'])OLD(["'])` at the head of `l`
(the two `\s*` are effectively possessive because they are followed by
non-whitespace literals).  On success returns the text of group 1, the
closing quote (group 2), and the remainder after the match. -/
def tryMatchAt (old : List Char) (l : List Char) : Option (List Char × Char × List Char) :=
  match eatLit nameLit l with
  | none => none
  | some t =>
    let ws1 := t.takeWhile isPySpace
    match t.dropWhile isPySpace with
    | '=' :: t2 =>
      let ws2 := t2.takeWhile isPySpace
      match t2.dropWhile isPySpace with
      | q1 :: t4 =>
        if quoteChar q1 then
          match eatLit old t4 with
          | none => none
          | some t5 =>
            match t5 with
            | q2 :: tail =>
              if quoteChar q2 then
                some (nameLit ++ ws1 ++ '=' :: ws2 ++ [q1], q2, tail)
              else none
            | [] => none
        else none
      | [] => none
    | _ => none

/-- `re.sub(pattern, repl, content, count=1)` for the pattern above with
replacement `\g<1>NEW\g<2>`: find the leftmost match and splice the new
name between the two preserved groups; `none` when there is no match
anywhere (Python then returns `content` unchanged). -/
def subFirstAux (old new : List Char) : List Char → Option (List Char)
  | [] => none
  | c :: rest =>
    match tryMatchAt old (c :: rest) with
    | some (g1, q2, tail) => some (g1 ++ new ++ q2 :: tail)
    | none =>
      match subFirstAux old new rest with
      | some r => some (c :: r)
      | none => none

/-- `TawalaProjectCreator._replace_project_name_in_file` on in-memory text:
run the count-1 substitution; if the result equals the original content
(no match, or the replacement is identical) raise the `ValueError`. -/
def replace_project_name_in_file (content old newName : String) :
    Except PyErr String :=
  let updated := (subFirstAux old.data newName.data content.data).getD content.data
  if updated = content.data then
    .error (.valueError
      ("Could not update project name in pyproject.toml. Pattern not found for: " ++ old))
  else .ok (String.mk updated)

/-- Split a character list at newlines (each `'\n'` ends a line). -/
def splitLinesAux : List Char → List Char → List (List Char)
  | [], acc => [acc.reverse]
  | c :: rest, acc =>
    if c = '\n' then acc.reverse :: splitLinesAux rest []
    else splitLinesAux rest (c :: acc)

/-- Strip `isPySpace` characters from both ends of a character list. -/
def stripList (l : List Char) : List Char :=
  ((l.dropWhile isPySpace).reverse.dropWhile isPySpace).reverse

/-- Parse a `[table]` header line, returning the table name. -/
def parseHeader (l : List Char) : Option (List Char) :=
  match stripList l with
  | '[' :: rest =>
    match rest.reverse with
    | ']' :: mid => some (stripList mid.reverse)
    | _ => none
  | _ => none

/-- Parse a `name = "value"` (or single-quoted) assignment line, returning
the value. -/
def parseNameValue (l : List Char) : Option (List Char) :=
  match eatLit nameLit (stripList l) with
  | none => none
  | some t =>
    match t.dropWhile isPySpace with
    | '=' :: t2 =>
      match t2.dropWhile isPySpace with
      | q :: t4 =>
        if quoteChar q then
          let v := t4.takeWhile fun c => !(c == q)
          match t4.dropWhile fun c => !(c == q) with
          | _ :: rest => if stripList rest = [] then some v else none
          | [] => none
        else none
      | [] => none
    | _ => none

/-- Walk the lines of a manifest tracking whether the current table is
`[project]`; return the value of the first `name = "..."` assignment seen
inside it. -/
def tomlProjectNameAux : List (List Char) → Bool → Option (List Char)
  | [], _ => none
  | line :: rest, inProj =>
    match parseHeader line with
    | some h => tomlProjectNameAux rest (h = ['p', 'r', 'o', 'j', 'e', 'c', 't'])
    | none =>
      if inProj then
        match parseNameValue line with
        | some v => some v
        | none => tomlProjectNameAux rest true
      else tomlProjectNameAux rest false

/-- Minimal model of `tomllib.load(f)["project"]["name"]`, restricted to
the manifest fragment the scaffolder consumes: top-level `[table]`
headers and basic one-line `name = "value"` string assignments.  On the
concrete manifests considered below it agrees with `tomllib`. -/
def tomlProjectName (content : String) : Option String :=
  (tomlProjectNameAux (splitLinesAux content.data []) false).map String.mk

/-- `TawalaProjectCreator._get_old_project_name`: `KeyError` when the
parsed manifest has no `project.name`. -/
def get_old_project_name (w : World) : Except PyErr String :=
  match tomlProjectName w.pyprojectContent with
  | some old => .ok old
  | none => .error (.keyError "project.name not found in pyproject.toml")

/-- `TawalaProjectCreator._update_pyproject_toml`: missing file raises
`FileNotFoundError`; otherwise extract the old name and rewrite the raw
text, recording the final `write_text` as an effect.  (After the copy the
destination `pyproject.toml` exists iff the template ships one, and its
content is the template's.) -/
def update_pyproject_toml (w : World) (newName : String) (p : PPath) :
    Except PyErr (List Effect) :=
  if !w.templateHasPyproject then
    .error (.fileNotFound "pyproject.toml not found in project directory")
  else
    match get_old_project_name w with
    | .error e => .error e
    | .ok old =>
      match replace_project_name_in_file w.pyprojectContent old newName with
      | .error e => .error e
      | .ok updated => .ok [Effect.writeFile p "pyproject.toml" updated]

/-- `TawalaProjectCreator._generate_readme_content`:
`f"# {self.project_name}\n\nCreated with Tawala CLI\n"`. -/
def generate_readme_content (n : String) : String :=
  String.mk ('#' :: ' ' :: (n.data ++ '\n' :: '\n' :: "Created with Tawala CLI\n".data))

/-- `TawalaProjectCreator._update_readme`: missing README raises
`FileNotFoundError`; otherwise the README is fully overwritten. -/
def update_readme (w : World) (n : String) (p : PPath) :
    Except PyErr (List Effect) :=
  if !w.templateHasReadme then
    .error (.fileNotFound "README.md not found in project directory")
  else .ok [Effect.writeFile p "README.md" (generate_readme_content n)]

/-- The `ProjectRequest` fields produced by `parse_arguments`. -/
structure Args where
  name : Option String
  template : String
  dry : Bool

/-- The body of the `try:` block of `TawalaProjectCreator.create`, paired
with the trace of filesystem writes performed before it returned or
raised.  `none` means the loop fuel ran out (the run is still going). -/
def create_body (f : Nat) (w : World) (a : Args) (ins : List Resp) :
    Option (Except PyErr Unit × List Effect) :=
  match resolve_then_validate f w (initState a.name) ins with
  | none => none
  | some (.error e) => some (.error e, [])
  | some (.ok (st, _)) =>
    match validate_template w a.template with
    | .error e => some (.error e, [])
    | .ok _ =>
      match create_project_structure w a.dry st with
      | (.error e, effs) => some (.error e, effs)
      | (.ok _, effs) =>
        if a.dry then some (.ok (), effs)
        else
          match update_pyproject_toml w (st.name.getD "") st.path with
          | .error e => some (.error e, effs)
          | .ok e1 =>
            match update_readme w (st.name.getD "") st.path with
            | .error e => some (.error e, effs ++ e1)
            | .ok e2 => some (.ok (), effs ++ e1 ++ e2)

/-- The `except` chain of `TawalaProjectCreator.create` as an exit-code
mapping (`ExitCode` values): `KeyboardInterrupt` is caught as 3,
`FileNotFoundError` and every other `Exception` as 1, a normal return as
0 (`SUCCESS`, `ERROR`, `KEYBOARD_INTERRUPT`). -/
def exit_of : Except PyErr Unit → Nat
  | .ok _ => 0
  | .error .keyboardInterrupt => 3
  | .error _ => 1

/-- `TawalaProjectCreator.create`: run the body under the single
top-level exception handler. -/
def create (f : Nat) (w : World) (a : Args) (ins : List Resp) :
    Option (Nat × List Effect) :=
  match create_body f w a ins with
  | none => none
  | some (r, effs) => some (exit_of r, effs)

/-- Resolution-phase name invariant: the current candidate name, when
present, is valid or is the empty string (the empty string arises only
from an empty CLI `name` argument, which the truthiness guard in
`_handle_named_project` never validates). -/
def GoodName (st : RState) : Prop :=
  ∃ n, st.name = some n ∧ (is_valid n = true ∨ n = "")

/-- Path invariant at the end of
`_validate_project_path_availability`: the destination does not exist, or
it exists, equals `cwd`, and `cwd` is empty. -/
def PathOK (w : World) (p : PPath) : Prop :=
  pexists w p = false ∨
    (pexists w p = true ∧ peqCwd p = true ∧ w.cwdNonempty = false)

/-- Lexicographic (byte-wise) order on relative paths, the order the spec
prescribes for the dry-run listing. -/
def lexLe : List Char → List Char → Bool
  | [], _ => true
  | _ :: _, [] => false
  | a :: as, b :: bs => if a < b then true else if b < a then false else lexLe as bs

/-- Extract the relative path from a preview entry line. -/
def entryName : OutLine → Option String
  | .fileEntry s => some s
  | _ => none

/-- A standard manifest shaped like the shipped templates: the first
`name = "..."` assignment is the `[project]` one. -/
def std_manifest : String :=
  "[project]\nname = \"tawala_template\"\nversion = \"0.1.0\"\n"

/-- A manifest whose FIRST textual `name = "..."` assignment belongs to a
table other than `[project]`.  `tomllib` parses `project.name` as
`oldname` here, but the count-1 textual substitution hits the
`[tool.poetry]` line. -/
def poetry_manifest : String :=
  "[tool.poetry]\nname = \"oldname\"\n\n[project]\nname = \"oldname\"\n"

/-- `poetry_manifest` after the scaffolder rewrites it for project name
`newapp`: only the `[tool.poetry]` assignment changed. -/
def poetry_updated : String :=
  "[tool.poetry]\nname = \"newapp\"\n\n[project]\nname = \"oldname\"\n"

/-- A concrete world: non-empty cwd, no colliding children, the `vercel`
template present with a standard manifest and README. -/
def w_basic : World where
  cwdName := "work"
  cwdNonempty := true
  childExists := fun _ => false
  templatesRootExists := true
  rootEntries := [("vercel", true)]
  templatesDirStr := "/site-packages/create_tawala_app/templates"
  templatePathStr := "/site-packages/create_tawala_app/templates/vercel"
  templateTopItems := ["pyproject.toml", "README.md", "app"]
  templateRglob := ["README.md", "app", "app/models.py", "app/urls.py", "pyproject.toml"]
  templateHasPyproject := true
  pyprojectContent := std_manifest
  templateHasReadme := true

/-- `w_basic` with an empty current working directory. -/
def w_emptycwd : World :=
  { w_basic with cwdName := "myapp", cwdNonempty := false }

/-- `w_basic` with the adversarial `poetry_manifest` in the template. -/
def w_poetry : World :=
  { w_basic with pyprojectContent := poetry_manifest }

/-- CLI arguments `myapp --dry-run`. -/
def a_dry : Args := ⟨some "myapp", "vercel", true⟩

/-- CLI arguments `newapp` (real run). -/
def a_newapp : Args := ⟨some "newapp", "vercel", false⟩

/-- CLI arguments with no name (real run). -/
def a_noname : Args := ⟨none, "vercel", false⟩

/-- The effect trace of the real run of `a_newapp` against `w_poetry`. -/
def poetry_effects : List Effect :=
  [Effect.mkdir (PPath.sub "newapp"),
   Effect.copyItem (PPath.sub "newapp") "pyproject.toml",
   Effect.copyItem (PPath.sub "newapp") "README.md",
   Effect.copyItem (PPath.sub "newapp") "app",
   Effect.writeFile (PPath.sub "newapp") "pyproject.toml" poetry_updated,
   Effect.writeFile (PPath.sub "newapp") "README.md" (generate_readme_content "newapp")]

/-- A character in `[a-zA-Z0-9]` that is also in `[a-zA-Z_]` is a letter
(the underscore is not alphanumeric). -/
theorem alnum_start_letter (c : Char) (ha : isAlnum c = true)
    (hs : isNameStart c = true) : isAsciiLetter c = true := by
  cases hl : isAsciiLetter c
  · exfalso
    have hc : c = '_' := by
      unfold isNameStart at hs
      rw [hl] at hs
      simpa using hs
    rw [hc] at ha
    exact absurd ha (by decide)
  · rfl

/-- If a name passes the first four tests of `get_error_message` (it is
non-empty, not a keyword, `re.match("^[a-zA-Z_]")` succeeds and
`re.match("[a-zA-Z0-9]$")` succeeds) then `is_valid` accepts it: such a
name is a single letter, possibly followed by one newline, and the second
regex alternative (with Python `$` semantics) accepts exactly those. -/
theorem checks_imply_valid (name : String) (hkw : iskeyword name = false)
    (hs : startCheck name.data = true) (he : endCheckMatch name.data = true) :
    is_valid name = true := by
  unfold is_valid
  match hdata : name.data with
  | [] => rw [hdata] at hs; exact absurd hs (by decide)
  | [c] =>
    rw [hdata] at hs he
    have hl : isAsciiLetter c = true :=
      alnum_start_letter c (by simpa [endCheckMatch] using he)
        (by simpa [startCheck] using hs)
    simp [hkw, pyFullMatch, singleLetterCore, hl]
  | [c, d] =>
    rw [hdata] at hs he
    have hd : d = '\n' := by
      have := (by simpa [endCheckMatch] using he : isAlnum c = true ∧ (d == '\n') = true)
      simpa using this.2
    have hc : isAlnum c = true := by
      have := (by simpa [endCheckMatch] using he : isAlnum c = true ∧ (d == '\n') = true)
      exact this.1
    have hl : isAsciiLetter c = true :=
      alnum_start_letter c hc (by simpa [startCheck] using hs)
    subst hd
    simp [hkw, pyFullMatch, singleLetterCore, List.getLast?, List.dropLast, hl]
  | c :: d :: e :: rest =>
    rw [hdata] at he
    exact absurd he (by simp [endCheckMatch])

/-- C2 (code bug).  The claim's characterisation of `is_valid` — and the
function's own docstring ("must contain only letters, numbers, and
underscores", "must end with a letter or number") — are violated by the
code at the input `"a\n"` (a letter followed by a newline): the pattern
`^[a-zA-Z]$` under Python `re.match` also matches when `$` sits before a
single trailing newline, so `is_valid "a\n"` is `true`, while the claimed
predicate (match the two-or-more-character shape, or be a single letter,
and not be a keyword) is `false` there.  The claim's five quoted examples
all hold. -/
theorem C2_dollar_newline_bug :
    is_valid "a\n" = true ∧ c2_claimed_valid "a\n" = false ∧
    is_valid "" = false ∧ is_valid "class" = false ∧
    is_valid "9abc" = false ∧ is_valid "abc-" = false ∧
    is_valid "a" = true := by
  refine ⟨by decide, by decide, by decide, by decide, by decide, by decide, by decide⟩

/-- C3 (code bug).  `get_error_message` tests rule 4 with
`re.match(r"[a-zA-Z0-9]$", name)`, which anchors at the START of the
string and therefore fails for every name of length ≥ 2 (it never
inspects the last character).  Hence for `"my-app"` — non-empty, not a
keyword, good start, ends with the letter `p`, but containing a hyphen —
the code returns the rule-4 "must end with a letter or number"
diagnostic, not the rule-5 character-set diagnostic the claim requires.
The empty name does report emptiness, as the claim says. -/
theorem C3_end_anchor_bug :
    get_error_message "" = msg_empty ∧
    get_error_message "my-app" = msg_end "my-app" ∧
    msg_end "my-app" ≠ msg_charset "my-app" := by
  refine ⟨rfl, by decide, by decide⟩

/-- C10.  For every name rejected by `is_valid`, `get_error_message`
returns one of the five specific diagnostics; the generic fallback is
unreachable, because a name passing the first four tests is necessarily a
single letter optionally followed by a newline — which `is_valid`
accepts. -/
theorem C10_no_fallback (name : String) (h : is_valid name = false) :
    get_error_message name = msg_empty ∨
    get_error_message name = msg_keyword name ∨
    get_error_message name = msg_start name ∨
    get_error_message name = msg_end name ∨
    get_error_message name = msg_charset name := by
  by_cases h0 : name.data.isEmpty
  · exact Or.inl (by simp [get_error_message, h0])
  · by_cases h1 : iskeyword name
    · exact Or.inr (Or.inl (by simp [get_error_message, h0, h1]))
    · by_cases h2 : startCheck name.data
      · by_cases h3 : endCheckMatch name.data
        · exfalso
          have hv := checks_imply_valid name (by simpa using h1)
            (by simpa using h2) (by simpa using h3)
          rw [hv] at h
          exact Bool.true_eq_false.mp h
        · refine Or.inr (Or.inr (Or.inr (Or.inl ?_)))
          simp [get_error_message, h0, h1, h2, h3]
      · refine Or.inr (Or.inr (Or.inl ?_))
        simp [get_error_message, h0, h1, h2]

/-- Witness for C10 at the concrete invalid name `"9abc"` (bad first
character): the theorem applies and indeed the rule-3 diagnostic results. -/
theorem C10_no_fallback_witness :
    is_valid "9abc" = false ∧
    (get_error_message "9abc" = msg_empty ∨
     get_error_message "9abc" = msg_keyword "9abc" ∨
     get_error_message "9abc" = msg_start "9abc" ∨
     get_error_message "9abc" = msg_end "9abc" ∨
     get_error_message "9abc" = msg_charset "9abc") :=
  ⟨by decide, C10_no_fallback "9abc" (by decide)⟩

/-- When `_handle_unnamed_project` reports success, the chosen name was
validated (either the prompted reply or the adopted cwd basename). -/
theorem handle_unnamed_project_true (w : World) (st : RState)
    (ins : List Resp) (st' : RState) (ins' : List Resp)
    (h : handle_unnamed_project w st ins = .ok (true, st', ins')) :
    ∃ n, st'.name = some n ∧ is_valid n = true := by
  cases hc : w.cwdNonempty
  · simp only [handle_unnamed_project, hc, Bool.false_eq_true, if_false] at h
    by_cases hv : is_valid w.cwdName
    · simp only [hv, if_true] at h
      obtain ⟨hst, -⟩ : ({ name := some w.cwdName, path := st.path } : RState) = st' ∧ ins = ins' := by
        simpa using h
      exact ⟨w.cwdName, by rw [← hst], hv⟩
    · simp [hv] at h
  · simp only [handle_unnamed_project, hc, if_true] at h
    match ins with
    | [] => simp [prompt_for_project_name] at h
    | .intr :: rest => simp [prompt_for_project_name] at h
    | .text s :: rest =>
      simp only [prompt_for_project_name] at h
      by_cases hm : pyStrip s = ""
      · simp [hm] at h
      · simp only [hm, if_false] at h
        by_cases hv : is_valid (pyStrip s)
        · simp only [hv, if_true] at h
          obtain ⟨hst, -⟩ :
              ({ name := some (pyStrip s), path := PPath.sub (pyStrip s) } : RState) = st' ∧
                rest = ins' := by simpa using h
          exact ⟨pyStrip s, by rw [← hst], hv⟩
        · simp [hv] at h

/-- When `_handle_named_project` reports success, the state is unchanged
and the current name is the (unvalidated) empty string or valid. -/
theorem handle_named_project_true (w : World) (st : RState) (n : String)
    (ins : List Resp) (st' : RState) (ins' : List Resp)
    (h : handle_named_project w st n ins = .ok (true, st', ins')) :
    st' = st ∧ (is_valid n = true ∨ n = "") := by
  by_cases h0 : n = ""
  · simp only [handle_named_project, h0, if_true, ite_self] at h
    obtain ⟨hst, -⟩ := by simpa using h
    exact ⟨hst.symm, Or.inr h0⟩
  · by_cases hv : is_valid n
    · simp only [handle_named_project, h0, if_false, hv, if_true, ite_self] at h
      obtain ⟨hst, -⟩ := by simpa using h
      exact ⟨hst.symm, Or.inl hv⟩
    · simp only [handle_named_project, h0, if_false, hv, Bool.false_eq_true] at h
      match ins with
      | [] => simp [prompt_for_project_name] at h
      | .intr :: rest => simp [prompt_for_project_name] at h
      | .text s :: rest =>
        simp only [prompt_for_project_name] at h
        by_cases hm : pyStrip s = "" <;> simp [hm] at h

/-- Whenever `_resolve_project_path` terminates normally, the project name
is set, and it is valid or the empty string (the only way a name escapes
validation is the falsy-string guard of `_handle_named_project`). -/
theorem resolve_project_path_name (w : World) :
    ∀ f st ins st' ins',
      resolve_project_path f w st ins = some (.ok (st', ins')) →
      GoodName st' := by
  intro f
  induction f with
  | zero => intro st ins st' ins' h; simp [resolve_project_path] at h
  | succ f ih =>
    intro st ins st' ins' h
    rw [resolve_project_path] at h
    cases hn : st.name with
    | none =>
      simp only [hn] at h
      cases hu : handle_unnamed_project w st ins with
      | error e => rw [hu] at h; simp at h
      | ok r =>
        obtain ⟨b, st2, ins2⟩ := r
        rw [hu] at h
        cases b with
        | true =>
          simp only at h
          obtain ⟨h1, h2⟩ : st2 = st' ∧ ins2 = ins' := by simpa using h
          obtain ⟨n, hn2, hv⟩ := handle_unnamed_project_true w st ins st2 ins2 hu
          exact ⟨n, h1 ▸ hn2, Or.inl hv⟩
        | false => exact ih st2 ins2 st' ins' (by simpa using h)
    | some n =>
      simp only [hn] at h
      cases hu : handle_named_project w st n ins with
      | error e => rw [hu] at h; simp at h
      | ok r =>
        obtain ⟨b, st2, ins2⟩ := r
        rw [hu] at h
        cases b with
        | true =>
          simp only at h
          obtain ⟨h1, h2⟩ : st2 = st' ∧ ins2 = ins' := by simpa using h
          obtain ⟨hst, hor⟩ := handle_named_project_true w st n ins st2 ins2 hu
          refine ⟨n, ?_, hor.elim Or.inl Or.inr⟩
          rw [← h1, hst, hn]
        | false => exact ih st2 ins2 st' ins' (by simpa using h)

/-- Invariant of `_validate_project_path_availability`: if the loop is
entered with a good candidate name, or while re-prompting on an existing
path, then on normal termination the name is good (valid or the empty
string) and the path is absent or is the reusable empty cwd.  The second
disjunct of the precondition covers the iterations in which an invalid
reply was stored without updating the path: the unchanged path still
exists, so the loop necessarily prompts again before it can exit. -/
theorem validate_availability_inv (w : World) :
    ∀ f st ins st' ins',
      validate_project_path_availability f w st ins = some (.ok (st', ins')) →
      (GoodName st ∨
        (should_use_existing_path w st.path = false ∧ pexists w st.path = true)) →
      GoodName st' ∧ PathOK w st'.path := by
  intro f
  induction f with
  | zero => intro st ins st' ins' h _; simp [validate_project_path_availability] at h
  | succ f ih =>
    intro st ins st' ins' h hpre
    rw [validate_project_path_availability] at h
    by_cases hs : should_use_existing_path w st.path
    · simp only [hs, if_true] at h
      obtain ⟨h1, h2⟩ : st = st' ∧ ins = ins' := by simpa using h
      subst h1
      refine ⟨?_, Or.inr ?_⟩
      · rcases hpre with hg | ⟨hfalse, -⟩
        · exact hg
        · exact absurd hs (by simp [hfalse])
      · have hs' := hs
        simp only [should_use_existing_path, Bool.and_eq_true, Bool.not_eq_true'] at hs'
        exact ⟨hs'.1.1, hs'.1.2, hs'.2⟩
    · simp only [hs, if_false] at h
      by_cases hex : pexists w st.path
      · simp only [hex, if_true] at h
        match ins with
        | [] => simp [prompt_for_project_name] at h
        | .intr :: rest => simp [prompt_for_project_name] at h
        | .text s :: rest =>
          simp only [prompt_for_project_name] at h
          by_cases hm : pyStrip s = ""
          · simp only [hm, if_true] at h
            cases hr : resolve_project_path f w ⟨none, st.path⟩ rest with
            | none => rw [hr] at h; simp at h
            | some r =>
              cases r with
              | error e => rw [hr] at h; simp at h
              | ok p =>
                obtain ⟨st2, ins2⟩ := p
                rw [hr] at h
                simp only at h
                exact ih st2 ins2 st' ins' h
                  (Or.inl (resolve_project_path_name w f _ _ _ _ hr))
          · simp only [hm, if_false] at h
            by_cases hv : is_valid (pyStrip s)
            · simp only [hv, if_true] at h
              exact ih _ rest st' ins' h (Or.inl ⟨pyStrip s, rfl, Or.inl hv⟩)
            · simp only [hv, if_false] at h
              exact ih _ rest st' ins' h (Or.inr ⟨by simpa using hs, hex⟩)
      · simp only [hex, if_false] at h
        obtain ⟨h1, h2⟩ : st = st' ∧ ins = ins' := by simpa using h
        subst h1
        refine ⟨?_, Or.inl (by simpa using hex)⟩
        rcases hpre with hg | ⟨-, htrue⟩
        · exact hg
        · exact absurd htrue (by simp [hex])

/-- C1 (amended).  Whenever resolution terminates successfully (the run
proceeds past `_resolve_project_path` and
`_validate_project_path_availability`), the resolved name is set and
satisfies `is_valid` OR is the empty string (an empty CLI `name` argument
is never validated, see `C1_counterexample`), and the resolved path
either does not exist, or exists, equals `cwd`, and `cwd` is empty — no
other existing path is ever accepted. -/
theorem C1_resolution_invariant (f : Nat) (w : World) (argsName : Option String)
    (ins : List Resp) (st' : RState) (ins' : List Resp)
    (h : resolve_then_validate f w (initState argsName) ins = some (.ok (st', ins'))) :
    GoodName st' ∧ PathOK w st'.path := by
  unfold resolve_then_validate at h
  cases hr : resolve_project_path f w (initState argsName) ins with
  | none => rw [hr] at h; simp at h
  | some r =>
    cases r with
    | error e => rw [hr] at h; simp at h
    | ok p =>
      obtain ⟨st2, ins2⟩ := p
      rw [hr] at h
      simp only at h
      exact validate_availability_inv w f st2 ins2 st' ins' h
        (Or.inl (resolve_project_path_name w f _ _ _ _ hr))

/-- Counterexample to C1 as stated: with the CLI name `""` (the empty
string, which `argparse` passes through) and an empty current directory,
resolution terminates successfully — the truthiness guard of
`_handle_named_project` skips validation and `_should_use_existing_path`
accepts `cwd` — yet the resolved name `""` is not `is_valid`. -/
theorem C1_counterexample :
    resolve_then_validate 3 w_emptycwd (initState (some "")) [] =
      some (.ok (⟨some "", PPath.cwdP⟩, [])) ∧
    is_valid "" = false :=
  ⟨rfl, rfl⟩

/-- Witness for C1 at a concrete successful run: CLI name `myapp`,
non-empty cwd, no colliding directory. -/
theorem C1_resolution_invariant_witness :
    GoodName ⟨some "myapp", PPath.sub "myapp"⟩ ∧
    PathOK w_basic (RState.mk (some "myapp") (PPath.sub "myapp")).path :=
  C1_resolution_invariant 3 w_basic (some "myapp") []
    ⟨some "myapp", PPath.sub "myapp"⟩ [] rfl

/-- C6 (amended).  An empty reply to a prompt never terminates resolution:
in the unnamed branch it stores `""` and the loop retries, in the named
branch it resets the name to `None` and the loop retries, and in the
availability loop it resets the name, re-runs `_resolve_project_path` and
continues checking — there is no cancellation exit at all (only a
`KeyboardInterrupt` leaves the loops). -/
theorem C6_empty_reply_continues (f : Nat) (w : World) (p : PPath)
    (ins : List Resp) :
    (w.cwdNonempty = true →
      resolve_project_path (f + 1) w ⟨none, p⟩ (.text "" :: ins) =
        resolve_project_path f w ⟨some "", p⟩ ins)
    ∧ (∀ n, n ≠ "" → is_valid n = false →
      resolve_project_path (f + 1) w ⟨some n, p⟩ (.text "" :: ins) =
        resolve_project_path f w ⟨none, p⟩ ins)
    ∧ (should_use_existing_path w p = false → pexists w p = true →
      ∀ nm : Option String,
      validate_project_path_availability (f + 1) w ⟨nm, p⟩ (.text "" :: ins) =
        match resolve_project_path f w ⟨none, p⟩ ins with
        | none => none
        | some (.error e) => some (.error e)
        | some (.ok (st2, ins2)) =>
            validate_project_path_availability f w st2 ins2) := by
  refine ⟨fun hc => ?_, fun n hne hv => ?_, fun hs hex nm => ?_⟩
  · rw [resolve_project_path]
    simp [handle_unnamed_project, prompt_for_project_name, hc, pyStrip]
  · rw [resolve_project_path]
    simp [handle_named_project, prompt_for_project_name, hne, hv, pyStrip]
  · rw [validate_project_path_availability]
    simp [hs, hex, prompt_for_project_name, pyStrip]

/-- Counterexample to C6 as stated: a run in which the user answers a
prompt with an empty line and resolution does NOT terminate — it
re-prompts, receives `myapp`, and completes successfully with a resolved
project, so the empty reply neither returned control to the top level nor
produced a cancellation. -/
theorem C6_counterexample :
    resolve_then_validate 5 w_basic (initState none) [.text "", .text "myapp"] =
      some (.ok (⟨some "myapp", PPath.sub "myapp"⟩, [])) :=
  rfl

/-- Witness for C6 at concrete arguments: with fuel 1, a non-empty cwd and
an empty first reply, one unnamed-branch iteration reduces to the retry
iteration (the equation of the first conjunct, instantiated). -/
theorem C6_empty_reply_continues_witness :
    resolve_project_path 2 w_basic ⟨none, PPath.cwdP⟩ [.text ""] =
      resolve_project_path 1 w_basic ⟨some "", PPath.cwdP⟩ [] :=
  (C6_empty_reply_continues 1 w_basic PPath.cwdP []).1 rfl

/-- In dry mode the body of `create` performs no filesystem write on any
path: resolution only reads, `_create_project_structure` takes the
preview branch, and `_after_creation_setup` is skipped. -/
theorem create_body_dry_effects (f : Nat) (w : World) (a : Args)
    (ins : List Resp) (r : Except PyErr Unit) (effs : List Effect)
    (h : create_body f w a ins = some (r, effs)) (hdry : a.dry = true) :
    effs = [] := by
  unfold create_body at h
  rw [hdry] at h
  cases hrv : resolve_then_validate f w (initState a.name) ins with
  | none => rw [hrv] at h; simp at h
  | some rr =>
    rw [hrv] at h
    cases rr with
    | error e =>
      simp only at h
      obtain ⟨-, h2⟩ : Except.error e = r ∧ [] = effs := by simpa using h
      exact h2.symm
    | ok p =>
      obtain ⟨st, ins2⟩ := p
      simp only at h
      cases hvt : validate_template w a.template with
      | error e =>
        rw [hvt] at h
        simp only at h
        obtain ⟨-, h2⟩ : Except.error e = r ∧ [] = effs := by simpa using h
        exact h2.symm
      | ok u =>
        rw [hvt] at h
        simp only [create_project_structure, if_true] at h
        obtain ⟨-, h2⟩ : Except.ok () = r ∧ [] = effs := by simpa using h
        exact h2.symm

/-- C5.  Whenever a dry run terminates (with any exit code), its trace of
filesystem effects is empty: dry-run mode never creates, modifies or
deletes a filesystem entry. -/
theorem C5_dry_run_no_effects (f : Nat) (w : World) (a : Args)
    (ins : List Resp) (ec : Nat) (effs : List Effect)
    (h : create f w a ins = some (ec, effs)) (hdry : a.dry = true) :
    effs = [] := by
  unfold create at h
  cases hb : create_body f w a ins with
  | none => rw [hb] at h; simp at h
  | some rp =>
    obtain ⟨r, effs2⟩ := rp
    rw [hb] at h
    simp only at h
    obtain ⟨-, h2⟩ : exit_of r = ec ∧ effs2 = effs := by simpa using h
    exact h2 ▸ create_body_dry_effects f w a ins r effs2 hb hdry

/-- Witness for C5: the concrete dry run `myapp --dry-run` against
`w_basic` terminates with exit code 0 and indeed wrote nothing. -/
theorem C5_dry_run_no_effects_witness :
    create 3 w_basic a_dry [] = some (0, []) ∧ ([] : List Effect) = [] :=
  ⟨rfl, C5_dry_run_no_effects 3 w_basic a_dry [] 0 [] rfl rfl⟩

/-- C7.  Every terminating run exits 0, 1 or 3; the exit code is 0 exactly
when the body returned normally, 3 exactly when a `KeyboardInterrupt`
escaped to the single top-level handler (which reports cancellation
instead of a stack trace), and 1 exactly when any other exception did
(missing template, missing manifest or manifest field, pattern mismatch,
missing README, destination already existing, EOF on input). -/
theorem C7_exit_codes (f : Nat) (w : World) (a : Args) (ins : List Resp)
    (ec : Nat) (effs : List Effect) (h : create f w a ins = some (ec, effs)) :
    (ec = 0 ∨ ec = 1 ∨ ec = 3)
    ∧ (ec = 0 ↔ create_body f w a ins = some (.ok (), effs))
    ∧ (ec = 3 ↔ create_body f w a ins = some (.error .keyboardInterrupt, effs))
    ∧ (ec = 1 ↔ ∃ e, e ≠ PyErr.keyboardInterrupt ∧
        create_body f w a ins = some (.error e, effs)) := by
  unfold create at h
  cases hb : create_body f w a ins with
  | none => rw [hb] at h; simp at h
  | some rp =>
    obtain ⟨r, effs2⟩ := rp
    rw [hb] at h
    simp only at h
    obtain ⟨h1, h2⟩ : exit_of r = ec ∧ effs2 = effs := by simpa using h
    subst h2
    rw [← h1]
    cases r with
    | ok u => cases u; simp [exit_of, hb]
    | error e => cases e <;> simp [exit_of, hb]

/-- Witness for C7: a keyboard interrupt delivered at the very first
prompt exits with code 3 and an empty effect trace. -/
theorem C7_exit_codes_witness :
    create 3 w_basic a_noname [.intr] = some (3, []) ∧
    ((3 : Nat) = 0 ∨ (3 : Nat) = 1 ∨ (3 : Nat) = 3) :=
  ⟨rfl, (C7_exit_codes 3 w_basic a_noname [.intr] 3 [] rfl).1⟩

/-- C8.  When the requested template has no matching directory under the
templates root, `_validate_template` raises `FileNotFoundError` carrying
the message built from `_get_available_templates`; the enumerated
templates are exactly the directory entries of the templates root, and no
template is enumerated when the root is absent (or has no directories, in
which case the list is empty and the message omits the enumeration). -/
theorem C8_template_not_found (w : World) (t : String)
    (h : template_ok w t = false) :
    validate_template w t = .error (.fileNotFound (template_not_found_msg w t))
    ∧ (∀ d, d ∈ get_available_templates w ↔
        (w.templatesRootExists = true ∧ (d, true) ∈ w.rootEntries))
    ∧ (w.templatesRootExists = false → get_available_templates w = []) := by
  refine ⟨by simp [validate_template, h], fun d => ?_,
    fun hroot => by simp [get_available_templates, hroot]⟩
  unfold get_available_templates
  by_cases hroot : w.templatesRootExists
  · simp only [hroot, if_true, List.mem_map, List.mem_filter]
    constructor
    · rintro ⟨⟨d1, b⟩, ⟨hmem, hb⟩, rfl⟩
      simp only at hb
      exact ⟨by simp [hroot], by rwa [hb] at hmem⟩
    · rintro ⟨-, hmem⟩
      exact ⟨(d, true), ⟨hmem, rfl⟩, rfl⟩
  · simp only [Bool.not_eq_true] at hroot
    simp [hroot]

/-- Witness for C8: requesting the missing template `nextjs` against
`w_basic` fails, and the only enumerated alternative is `vercel`. -/
theorem C8_template_not_found_witness :
    validate_template w_basic "nextjs" =
      .error (.fileNotFound (template_not_found_msg w_basic "nextjs")) ∧
    ("vercel" ∈ get_available_templates w_basic ↔
      (w_basic.templatesRootExists = true ∧ ("vercel", true) ∈ w_basic.rootEntries)) :=
  ⟨(C8_template_not_found w_basic "nextjs" rfl).1,
   (C8_template_not_found w_basic "nextjs" rfl).2.1 "vercel"⟩

/-- Extracting the relative paths from a run of entry lines gives back the
listed relative paths. -/
theorem filterMap_entryName_map_fileEntry (l : List String) :
    (l.map OutLine.fileEntry).filterMap entryName = l := by
  induction l with
  | nil => rfl
  | cons a t ih => simp [entryName, ih]

/-- Non-entry output lines carry no relative path. -/
theorem entryName_filesHeader (n : Nat) : entryName (OutLine.filesHeader n) = none := rfl

/-- Non-entry output lines carry no relative path. -/
theorem entryName_andMore (n : Nat) : entryName (OutLine.andMore n) = none := rfl

/-- Non-entry output lines carry no relative path. -/
theorem entryName_wouldCreate (p : PPath) : entryName (OutLine.wouldCreate p) = none := rfl

/-- Non-entry output lines carry no relative path. -/
theorem entryName_copyFrom (s : String) : entryName (OutLine.copyFrom s) = none := rfl

/-- Non-entry output lines carry no relative path. -/
theorem entryName_copyTo (p : PPath) : entryName (OutLine.copyTo p) = none := rfl

/-- No `... and N more` line hides among the entry lines. -/
theorem andMore_not_mem_take_map (n : Nat) (l : List String) (k : Nat) :
    OutLine.andMore n ∉ List.take k (List.map OutLine.fileEntry l) := by
  intro hmem
  have h2 := List.take_subset k (l.map OutLine.fileEntry) hmem
  simp [List.mem_map] at h2

/-- No destination line hides among the entry lines. -/
theorem wouldCreate_not_mem_take_map (p : PPath) (l : List String) (k : Nat) :
    OutLine.wouldCreate p ∉ List.take k (List.map OutLine.fileEntry l) := by
  intro hmem
  have h2 := List.take_subset k (l.map OutLine.fileEntry) hmem
  simp [List.mem_map] at h2

/-- The `... and N more` line appears in the preview exactly when more
than ten entries exist, and then `N` counts the entries beyond ten. -/
theorem andMore_mem_preview (n : Nat) (files : List String) :
    OutLine.andMore n ∈ show_template_files_preview files ↔
      (10 < files.length ∧ n = files.length - 10) := by
  unfold show_template_files_preview
  cases files with
  | nil => simp
  | cons a t =>
    by_cases hm : 10 < (a :: t).length <;>
      simp [hm, List.mem_append, andMore_not_mem_take_map, eq_comm]

/-- The preview never prints a destination line. -/
theorem wouldCreate_not_mem_preview (p : PPath) (files : List String) :
    OutLine.wouldCreate p ∉ show_template_files_preview files := by
  unfold show_template_files_preview
  cases files with
  | nil => simp
  | cons a t =>
    by_cases hm : 10 < (a :: t).length <;>
      simp [hm, List.mem_append, wouldCreate_not_mem_take_map]

/-- C9 (amended).  The dry-run output names the would-be destination
directory exactly when the target differs from the current working
directory; the entries listed are the first ten elements of
`template_path.rglob("*")` IN THE ORDER THE TRAVERSAL RETURNS THEM (NOT
sorted — see `C9_counterexample`), so at most ten entries appear; and an
`... and N more` line appears exactly when there are more than ten
entries, with `N` the number of entries beyond the first ten. -/
theorem C9_preview_shape (w : World) (st : RState) :
    (OutLine.wouldCreate st.path ∈ show_dry_run_output w st ↔ peqCwd st.path = false)
    ∧ (show_dry_run_output w st).filterMap entryName = w.templateRglob.take 10
    ∧ ((show_dry_run_output w st).filterMap entryName).length ≤ 10
    ∧ (∀ n, OutLine.andMore n ∈ show_dry_run_output w st ↔
        (10 < w.templateRglob.length ∧ n = w.templateRglob.length - 10)) := by
  have hpre : (show_template_files_preview w.templateRglob).filterMap entryName =
      w.templateRglob.take 10 := by
    unfold show_template_files_preview
    cases hl : w.templateRglob with
    | nil => rfl
    | cons a t =>
      by_cases hm : 10 < (a :: t).length <;>
        simp only [List.isEmpty_cons, Bool.false_eq_true, if_false, hm, if_true,
          List.filterMap_cons, List.filterMap_append, entryName_filesHeader,
          entryName_andMore, filterMap_entryName_map_fileEntry,
          List.filterMap_nil, List.append_nil]
  refine ⟨?_, ?_, ?_, ?_⟩
  · unfold show_dry_run_output
    by_cases hq : peqCwd st.path
    · simp [hq, wouldCreate_not_mem_preview]
    · simp [hq, wouldCreate_not_mem_preview]
  · unfold show_dry_run_output
    by_cases hq : peqCwd st.path <;>
      simp [hq, List.filterMap_append, entryName_wouldCreate, entryName_copyFrom,
        entryName_copyTo, hpre]
  · unfold show_dry_run_output
    by_cases hq : peqCwd st.path <;>
      simp [hq, List.filterMap_append, entryName_wouldCreate, entryName_copyFrom,
        entryName_copyTo, hpre, List.length_take]
  · intro n
    unfold show_dry_run_output
    by_cases hq : peqCwd st.path <;>
      simp [hq, andMore_mem_preview]

/-- Counterexample to C9 as stated: the preview lists entries in the order
`rglob` yields them, which need not be lexicographic — for traversal
order `["b", "a"]` the listed entries are `b` then `a`, although `a`
precedes `b` lexicographically. -/
theorem C9_counterexample :
    (show_template_files_preview ["b", "a"]).filterMap entryName = ["b", "a"] ∧
    lexLe "b".data "a".data = false ∧ lexLe "a".data "b".data = true :=
  ⟨rfl, by decide, by decide⟩

/-- `eatLit` consumes exactly the literal it was given. -/
theorem eatLit_sound (a : List Char) :
    ∀ l r, eatLit a l = some r → l = a ++ r := by
  induction a with
  | nil =>
    intro l r h
    simp only [eatLit, Option.some.injEq] at h
    simp [h]
  | cons c cs ih =>
    intro l r h
    match l with
    | [] => simp [eatLit] at h
    | d :: ds =>
      simp only [eatLit] at h
      by_cases hcd : c = d
      · rw [if_pos hcd] at h
        subst hcd
        rw [List.cons_append, ih ds r h]
      · rw [if_neg hcd] at h
        exact absurd h (by simp)

/-- Every character kept by `takeWhile` satisfies the predicate. -/
theorem all_takeWhile (p : Char → Bool) (l : List Char) :
    (l.takeWhile p).all p = true := by
  induction l with
  | nil => rfl
  | cons a t ih => by_cases h : p a <;> simp [List.takeWhile_cons, h, ih]

/-- Soundness of the pattern matcher: a match at the head of `l`
decomposes `l` into group 1 (`name`, whitespace, `=`, whitespace, an
opening quote), the old value, a closing quote, and the remainder. -/
theorem tryMatchAt_sound (old l : List Char) (g1 : List Char) (q2 : Char)
    (tail : List Char) (h : tryMatchAt old l = some (g1, q2, tail)) :
    l = g1 ++ old ++ q2 :: tail ∧ quoteChar q2 = true ∧
      ∃ ws1 ws2 q1, g1 = nameLit ++ ws1 ++ '=' :: ws2 ++ [q1] ∧
        quoteChar q1 = true ∧ ws1.all isPySpace = true ∧
        ws2.all isPySpace = true := by
  unfold tryMatchAt at h
  cases he : eatLit nameLit l with
  | none => rw [he] at h; exact absurd h (by simp)
  | some t =>
    rw [he] at h
    simp only at h
    have hl : l = nameLit ++ t := eatLit_sound nameLit l t he
    have ht : t = t.takeWhile isPySpace ++ t.dropWhile isPySpace :=
      (List.takeWhile_append_dropWhile ..).symm
    split at h
    next t2 heq2 =>
      have ht2 : t2 = t2.takeWhile isPySpace ++ t2.dropWhile isPySpace :=
        (List.takeWhile_append_dropWhile ..).symm
      split at h
      next q1 t4 heq4 =>
        split at h
        next hq1 =>
          cases he2 : eatLit old t4 with
          | none => rw [he2] at h; exact absurd h (by simp)
          | some t5 =>
            rw [he2] at h
            have ht4 : t4 = old ++ t5 := eatLit_sound old t4 t5 he2
            match t5, h with
            | q2' :: tail', h =>
              simp only at h
              split at h
              next hq2 =>
                obtain ⟨hg, hq, htl⟩ :
                    nameLit ++ t.takeWhile isPySpace ++ '=' ::
                        (t2.takeWhile isPySpace ++ [q1]) = g1 ∧
                      q2' = q2 ∧ tail' = tail := by
                  have h' := h
                  simp only [Option.some.injEq, Prod.mk.injEq] at h'
                  exact ⟨by rw [← h'.1]; simp, h'.2.1, h'.2.2⟩
                subst hq htl
                refine ⟨?_, hq2, t.takeWhile isPySpace, t2.takeWhile isPySpace,
                  q1, by rw [← hg]; simp, hq1, all_takeWhile .., all_takeWhile ..⟩
                calc l = nameLit ++ t := hl
                  _ = nameLit ++ (t.takeWhile isPySpace ++ '=' :: t2) := by
                        rw [← heq2, List.takeWhile_append_dropWhile]
                  _ = nameLit ++ (t.takeWhile isPySpace ++
                        '=' :: (t2.takeWhile isPySpace ++ q1 :: t4)) := by
                        rw [← heq4, List.takeWhile_append_dropWhile]
                  _ = nameLit ++ (t.takeWhile isPySpace ++
                        '=' :: (t2.takeWhile isPySpace ++ q1 ::
                          (old ++ q2' :: tail'))) := by rw [← ht4]
                  _ = (nameLit ++ t.takeWhile isPySpace ++
                        '=' :: (t2.takeWhile isPySpace ++ [q1])) ++ old ++
                          q2' :: tail' := by simp [List.append_assoc]
                  _ = g1 ++ old ++ q2' :: tail' := by rw [hg]
              next => exact absurd h (by simp)
        next => exact absurd h (by simp)
      next => exact absurd h (by simp)
    next hne => exact absurd h (by simp)

/-- Soundness of the count-1 substitution scan: on success the content
splits around the LEFTMOST match (no earlier position matches), and the
result is the same text with the old value replaced by the new one
between the preserved groups. -/
theorem subFirstAux_sound (old new : List Char) :
    ∀ content updated, subFirstAux old new content = some updated →
      ∃ pre g1 q2 tail,
        content = pre ++ g1 ++ old ++ q2 :: tail ∧
        updated = pre ++ g1 ++ new ++ q2 :: tail ∧
        tryMatchAt old (content.drop pre.length) = some (g1, q2, tail) ∧
        (∀ k, k < pre.length → tryMatchAt old (content.drop k) = none) := by
  intro content
  induction content with
  | nil => intro updated h; simp [subFirstAux] at h
  | cons c rest ih =>
    intro updated h
    rw [subFirstAux] at h
    cases hm : tryMatchAt old (c :: rest) with
    | some r =>
      obtain ⟨g1, q2, tail⟩ := r
      rw [hm] at h
      simp only [Option.some.injEq] at h
      refine ⟨[], g1, q2, tail, ?_, ?_, ?_, ?_⟩
      · have hdec := (tryMatchAt_sound old (c :: rest) g1 q2 tail hm).1
        simpa using hdec
      · simpa using h.symm
      · simpa using hm
      · intro k hk
        exact absurd hk (by simp)
    | none =>
      rw [hm] at h
      cases hs : subFirstAux old new rest with
      | none => rw [hs] at h; simp at h
      | some r =>
        rw [hs] at h
        simp only [Option.some.injEq] at h
        obtain ⟨pre, g1, q2, tail, h1, h2, h3, h4⟩ := ih r hs
        refine ⟨c :: pre, g1, q2, tail, ?_, ?_, ?_, ?_⟩
        · rw [h1]; simp
        · rw [← h, h2]; simp
        · simpa using h3
        · intro k hk
          match k with
          | 0 => simpa using hm
          | k' + 1 =>
            have hk' : k' < pre.length := by simpa using hk
            simpa using h4 k' hk'

/-- `_replace_project_name_in_file` succeeds exactly when the scan found a
match whose replacement changed the text, and then returns that
replacement. -/
theorem replace_project_name_sound (content old newName updated : String)
    (h : replace_project_name_in_file content old newName = .ok updated) :
    ∃ u, subFirstAux old.data newName.data content.data = some u ∧
      updated.data = u := by
  unfold replace_project_name_in_file at h
  cases hs : subFirstAux old.data newName.data content.data with
  | none =>
    rw [hs] at h
    simp at h
  | some u =>
    rw [hs] at h
    simp only [Option.getD_some] at h
    by_cases he : u = content.data
    · rw [if_pos he] at h
      exact absurd h (by simp)
    · rw [if_neg he] at h
      refine ⟨u, rfl, ?_⟩
      have hmk : String.mk u = updated := by simpa using h
      rw [← hmk]

/-- Splitting a newline-terminated first line. -/
theorem splitLinesAux_no_nl (a : List Char) :
    ∀ acc r, (∀ c ∈ a, c ≠ '\n') →
      splitLinesAux (a ++ '\n' :: r) acc =
        (acc.reverse ++ a) :: splitLinesAux r [] := by
  induction a with
  | nil => intro acc r _; simp [splitLinesAux]
  | cons c t ih =>
    intro acc r h
    have hc : ¬(c = '\n') := h c (by simp)
    simp only [List.cons_append, splitLinesAux, hc, if_false, List.append_eq]
    rw [ih (c :: acc) r (fun d hd => h d (by simp [hd]))]
    simp

/-- The regenerated README starts with the heading line `# <name>` and
contains the attribution line. -/
theorem generate_readme_lines (n : String) (h : ∀ c ∈ n.data, c ≠ '\n') :
    (splitLinesAux (generate_readme_content n).data []).head? =
      some ('#' :: ' ' :: n.data) ∧
    "Created with Tawala CLI".data ∈
      splitLinesAux (generate_readme_content n).data [] := by
  have hdata : (generate_readme_content n).data =
      ('#' :: ' ' :: n.data) ++ '\n' :: ('\n' :: "Created with Tawala CLI\n".data) := by
    simp [generate_readme_content]
  have hne : ∀ c ∈ '#' :: ' ' :: n.data, c ≠ '\n' := by
    intro c hc
    simp only [List.mem_cons] at hc
    rcases hc with rfl | rfl | h1
    · decide
    · decide
    · exact h c h1
  rw [hdata, splitLinesAux_no_nl ('#' :: ' ' :: n.data) []
    ('\n' :: "Created with Tawala CLI\n".data) hne]
  refine ⟨rfl, ?_⟩
  exact List.mem_cons_of_mem _ (by decide)

/-- C4 (amended).  After a successful real run with resolved name `N`:
(1) the rewritten manifest differs from the template manifest ONLY in the
first (leftmost) textual occurrence of `name = "<old>"` or
`name = '<old>'`, whose value becomes `N` while the surrounding text —
including the two original quote characters — is preserved verbatim;
(2) the README is fully overwritten with the generated content; and
(3) that content starts with the heading line `# N` and contains the
attribution line.  The destination manifest's PARSED `project.name`
equals `N` only when that first occurrence is the `[project]` name
assignment (true for standard templates, refuted in general by
`C4_counterexample`). -/
theorem C4_manifest_rewrite :
    (∀ content old newName updated,
      replace_project_name_in_file content old newName = .ok updated →
      ∃ pre g1 q2 tail,
        content.data = pre ++ g1 ++ old.data ++ q2 :: tail ∧
        updated.data = pre ++ g1 ++ newName.data ++ q2 :: tail ∧
        quoteChar q2 = true ∧
        (∃ ws1 ws2 q1, g1 = nameLit ++ ws1 ++ '=' :: ws2 ++ [q1] ∧
          quoteChar q1 = true ∧ ws1.all isPySpace = true ∧
          ws2.all isPySpace = true) ∧
        (∀ k, k < pre.length → tryMatchAt old.data (content.data.drop k) = none))
    ∧ (∀ w n p effs, update_readme w n p = .ok effs →
        effs = [Effect.writeFile p "README.md" (generate_readme_content n)])
    ∧ (∀ n : String, (∀ c ∈ n.data, c ≠ '\n') →
        (splitLinesAux (generate_readme_content n).data []).head? =
          some ('#' :: ' ' :: n.data) ∧
        "Created with Tawala CLI".data ∈
          splitLinesAux (generate_readme_content n).data []) := by
  refine ⟨?_, ?_, generate_readme_lines⟩
  · intro content old newName updated h
    obtain ⟨u, hsub, hupd⟩ := replace_project_name_sound content old newName updated h
    obtain ⟨pre, g1, q2, tail, h1, h2, h3, h4⟩ :=
      subFirstAux_sound old.data newName.data content.data u hsub
    obtain ⟨-, hq2, hg1⟩ := tryMatchAt_sound old.data
      (content.data.drop pre.length) g1 q2 tail h3
    exact ⟨pre, g1, q2, tail, h1, by rw [hupd, h2], hq2, hg1, h4⟩
  · intro w n p effs h
    unfold update_readme at h
    by_cases hr : w.templateHasReadme
    · simp only [hr, Bool.not_true, Bool.false_eq_true, if_false] at h
      simpa using h.symm
    · simp only [Bool.not_eq_true] at hr
      rw [hr] at h
      exact absurd h (by simp)

/-- Counterexample to C4 as stated: a real run that succeeds against a
template whose manifest's first textual `name = "..."` assignment is in
`[tool.poetry]`, not `[project]`.  The run completes with exit code 0 and
writes `poetry_updated` as the manifest — but the parsed `project.name`
of the written manifest is still `oldname`, not the resolved name
`newapp`. -/
theorem C4_counterexample :
    create_body 3 w_poetry a_newapp [] = some (.ok (), poetry_effects) ∧
    tomlProjectName poetry_updated = some "oldname" ∧
    ("oldname" : String) ≠ "newapp" :=
  ⟨rfl, rfl, by decide⟩

/-- Witness for C4 at the concrete name `myapp`: the generated README
heading and attribution, via the theorem. -/
theorem C4_manifest_rewrite_witness :
    (splitLinesAux (generate_readme_content "myapp").data []).head? =
      some ('#' :: ' ' :: "myapp".data) ∧
    "Created with Tawala CLI".data ∈
      splitLinesAux (generate_readme_content "myapp").data [] :=
  C4_manifest_rewrite.2.2 "myapp" (by decide)

/-- Witness for C9 at the concrete world `w_basic` and destination
`cwd/myapp`: the five-entry preview lists all five entries (≤ 10). -/
theorem C9_preview_shape_witness :
    (show_dry_run_output w_basic ⟨some "myapp", PPath.sub "myapp"⟩).filterMap
        entryName = w_basic.templateRglob.take 10 ∧
    ((show_dry_run_output w_basic ⟨some "myapp", PPath.sub "myapp"⟩).filterMap
        entryName).length ≤ 10 :=
  ⟨(C9_preview_shape w_basic ⟨some "myapp", PPath.sub "myapp"⟩).2.1,
   (C9_preview_shape w_basic ⟨some "myapp", PPath.sub "myapp"⟩).2.2.1⟩
